import Mathlib

/-!
Verification development for the FastMail JMAP MCP server
(`fastmail_mcp_server.py`).  The Python source is shallowly embedded:
JSON values become the inductive `JVal`, each tool handler becomes a pure
Lean function threaded with an explicit server/transport oracle, and the
requests each handler issues are returned alongside its result so that
"no network I/O happened" is directly observable.

Conventions used throughout the embedding:
  * Python `dict` literals become association lists inside `JVal.obj`,
    in the source's insertion order.
  * Python truthiness tests on optional strings (`if x := args.get(k)`)
    become `truthyOpt`, which is false for `none` and for the empty string.
  * Raised exceptions and returned error texts are both modelled as
    `Except.error` carrying the message; emoji prefixes and other purely
    presentational formatting of the Python strings are dropped.
  * Paths on which the Python code would raise `KeyError` / `IndexError` /
    `TypeError` on a malformed server response are modelled as
    `Except.error shapeErr`.
-/

namespace FastMail

/-- JSON-like values, the data exchanged with the JMAP server. -/
inductive JVal where
  | null
  | bool (b : Bool)
  | nat (n : Nat)
  | str (s : String)
  | arr (xs : List JVal)
  | obj (fields : List (String × JVal))

/-- Association-list lookup, the embedding of Python `d[k]` / `d.get(k)`
on dictionaries (keys here are never duplicated). -/
def assoc (k : String) : List (String × JVal) → Option JVal
  | [] => none
  | (k₁, v) :: rest => if k₁ = k then some v else assoc k rest

/-- Key lookup on a `JVal`; `none` when the value is not an object or the
key is absent. -/
def jlookup (v : JVal) (k : String) : Option JVal :=
  match v with
  | .obj fields => assoc k fields
  | _ => none

/-- Python truthiness of an optional string: `None` and `""` are falsy. -/
def truthyOpt : Option String → Bool
  | some s => s != ""
  | none => false

/-- Embedding of an optional string into JSON (`None` becomes `null`). -/
def jOfOptStr : Option String → JVal
  | some s => .str s
  | none => .null

/-- One JMAP method call: (methodName, arguments, label). -/
abbrev MethodCall := String × JVal × String

/-- The `methodResponses` array of a JMAP reply: (methodName, payload, label)
triples. -/
abbrev MethodResponses := List MethodCall

/-- The wire request built by `make_jmap_request` (line 267): capability list
plus the ordered method calls. -/
structure WireRequest where
  capabilities : List String
  methodCalls : List MethodCall

/-- Mutable state of the `FastMailMCPServer` object (lines 20-22). -/
structure ServerState where
  api_token : Option String
  account_id : Option String
  session_data : Option JVal

/-- The guard of `make_jmap_request` (line 264):
`if not self.api_token or not self.account_id`. -/
def notConfigured (st : ServerState) : Bool :=
  !truthyOpt st.api_token || !truthyOpt st.account_id

/-- Message of the exception raised at line 265. -/
def notConfiguredMsg : String :=
  "FastMail not configured. Use configure_fastmail first."

/-- Stand-in message for response shapes on which the Python code would
raise `KeyError` / `IndexError` / `TypeError`. -/
def shapeErr : String := "unexpected response shape"

/-- Error text returned at line 474 (emoji prefix dropped). -/
def emptyCriteriaMsg : String := "Please provide at least one search criterion."

/-- Message of the exception raised at line 359. -/
def mustProvideMsg : String := "Either mailboxId or mailboxName must be provided"

/-- The request body assembled at lines 267-270. -/
def mkWireRequest (calls : List MethodCall) : WireRequest :=
  { capabilities := ["urn:ietf:params:jmap:core", "urn:ietf:params:jmap:mail"],
    methodCalls := calls }

/-- Transport oracle: the HTTP POST of lines 272-280, returning
(status code, response text, parsed methodResponses). -/
abbrev Server := WireRequest → Nat × String × MethodResponses

/-- Embedding of `make_jmap_request` (lines 263-285).  Returns the list of
wire requests actually issued together with the outcome, so theorems can
talk about the absence of network I/O. -/
def make_jmap_request (st : ServerState) (method_calls : List MethodCall)
    (server : Server) : List WireRequest × Except String MethodResponses :=
  if notConfigured st then
    ([], .error notConfiguredMsg)
  else
    match server (mkWireRequest method_calls) with
    | (status, text, resp) =>
      if status ≠ 200 then
        ([mkWireRequest method_calls], .error ("JMAP API error: " ++ text))
      else ([mkWireRequest method_calls], .ok resp)

/-- Bootstrap oracle: the session GET of lines 241-245, returning
(status code, response text, response JSON). -/
abbrev SessionFetch := String → Nat × String × JVal

/-- Lookup of `session_data["primaryAccounts"]["urn:ietf:params:jmap:mail"]`
(line 256); `none` on the shapes where Python would raise `KeyError` (or
where the value is not a string, which the embedding cannot type). -/
def primaryMailAccount (sessionJson : JVal) : Option String :=
  match jlookup sessionJson "primaryAccounts" with
  | some pa =>
    match jlookup pa "urn:ietf:params:jmap:mail" with
    | some (.str s) => some s
    | _ => none
  | none => none

/-- Embedding of `configure_fastmail` (lines 237-261).  Mirrors the source
order: `self.api_token` is assigned first (line 238), the session fetch
happens second, and `self.session_data` / `self.account_id` are assigned
only on a 200 response.  The success confirmation text is presentation and
is modelled as `.ok ()`. -/
def configure_fastmail (st : ServerState) (apiToken : String)
    (accountIdArg : Option String) (fetch : SessionFetch) :
    ServerState × Except String Unit :=
  let st₁ := { st with api_token := some apiToken }
  match fetch apiToken with
  | (status, text, body) =>
    if status ≠ 200 then
      (st₁, .error ("Failed to authenticate: " ++ text))
    else
      let st₂ := { st₁ with session_data := some body }
      if truthyOpt accountIdArg then
        ({ st₂ with account_id := accountIdArg }, .ok ())
      else
        match primaryMailAccount body with
        | some a => ({ st₂ with account_id := some a }, .ok ())
        | none => (st₂, .error shapeErr)

/-- Extraction `result["methodResponses"][0][1]["list"]` shared by
`list_mailboxes` (line 291), `find_mailbox` (line 324) and
`resolve_mailbox_id` (line 364). -/
def mailboxListFromResponses (resp : MethodResponses) :
    Except String (List JVal) :=
  match resp with
  | (_, p, _) :: _ =>
    match jlookup p "list" with
    | some (.arr l) => .ok l
    | _ => .error shapeErr
  | [] => .error shapeErr

/-- The single `Mailbox/get` call built at lines 288, 321 and 362. -/
def mailboxGetCall (st : ServerState) : MethodCall :=
  ("Mailbox/get", .obj [("accountId", jOfOptStr st.account_id)], "a")

/-- The role filter of `list_mailboxes` (line 295):
`mb.get("role") == role_filter`. -/
def roleMatches (roleFilter : String) (mb : JVal) : Bool :=
  match jlookup mb "role" with
  | some (.str r) => r == roleFilter
  | _ => false

/-- Embedding of `list_mailboxes` (lines 287-318).  The result is the
(possibly role-filtered) mailbox list; the emoji rendering of lines 297-318
is presentation and is not modelled. -/
def list_mailboxes (st : ServerState) (role : Option String) (server : Server) :
    List WireRequest × Except String (List JVal) :=
  match make_jmap_request st [mailboxGetCall st] server with
  | (reqs, .error e) => (reqs, .error e)
  | (reqs, .ok resp) =>
    match mailboxListFromResponses resp with
    | .error e => (reqs, .error e)
    | .ok mbs =>
      match role with
      | some r => if r != "" then (reqs, .ok (mbs.filter (roleMatches r))) else (reqs, .ok mbs)
      | none => (reqs, .ok mbs)

/-- Substring test, the embedding of Python `needle in hay` on strings. -/
def charsInfix (needle : List Char) : List Char → Bool
  | [] => needle.isEmpty
  | c :: rest => needle.isPrefixOf (c :: rest) || charsInfix needle rest

/-- String containment used by the `find_mailbox` name match (line 333). -/
def strContains (hay needle : String) : Bool :=
  charsInfix needle.toList hay.toList

/-- The selection loop of `find_mailbox` (lines 330-334): a mailbox is kept
when the role search matches, or else when the lowercased name search is a
substring of the lowercased name. -/
def findMatches (nameSearch : String) (roleSearch : Option String) :
    List JVal → Except String (List JVal)
  | [] => .ok []
  | mb :: rest =>
    let roleHit :=
      match roleSearch with
      | some r => r != "" && roleMatches r mb
      | none => false
    if roleHit then
      match findMatches nameSearch roleSearch rest with
      | .ok tail => .ok (mb :: tail)
      | .error e => .error e
    else if nameSearch != "" then
      match jlookup mb "name" with
      | some (.str n) =>
        if strContains n.toLower nameSearch then
          match findMatches nameSearch roleSearch rest with
          | .ok tail => .ok (mb :: tail)
          | .error e => .error e
        else findMatches nameSearch roleSearch rest
      | _ => .error shapeErr
    else findMatches nameSearch roleSearch rest

/-- Embedding of `find_mailbox` (lines 320-351).  Returns the matched
mailboxes; the no-match message and the emoji formatting are presentation. -/
def find_mailbox (st : ServerState) (name role : Option String)
    (server : Server) : List WireRequest × Except String (List JVal) :=
  match make_jmap_request st [mailboxGetCall st] server with
  | (reqs, .error e) => (reqs, .error e)
  | (reqs, .ok resp) =>
    match mailboxListFromResponses resp with
    | .error e => (reqs, .error e)
    | .ok mbs =>
      (reqs, findMatches ((name.getD "").toLower) role mbs)

/-- The name-resolution loop of `resolve_mailbox_id` (lines 366-370):
first mailbox whose lowercased name equals the lowercased argument. -/
def findMailboxIdByName (mailboxName : String) :
    List JVal → Except String String
  | [] => .error ("Mailbox not found: " ++ mailboxName)
  | mb :: rest =>
    match jlookup mb "name" with
    | some (.str n) =>
      if n.toLower == mailboxName.toLower then
        match jlookup mb "id" with
        | some (.str i) => .ok i
        | _ => .error shapeErr
      else findMailboxIdByName mailboxName rest
    | _ => .error shapeErr

/-- The by-name branch of `resolve_mailbox_id` (lines 358-370). -/
def resolveByName (st : ServerState) (mailboxName : Option String)
    (server : Server) : List WireRequest × Except String String :=
  if truthyOpt mailboxName = false then ([], .error mustProvideMsg)
  else
    match make_jmap_request st [mailboxGetCall st] server with
    | (reqs, .error e) => (reqs, .error e)
    | (reqs, .ok resp) =>
      match mailboxListFromResponses resp with
      | .error e => (reqs, .error e)
      | .ok mbs => (reqs, findMailboxIdByName (mailboxName.getD "") mbs)

/-- Embedding of `resolve_mailbox_id` (lines 353-370): a truthy
`mailbox_id` is returned as-is, otherwise the name is resolved through a
`Mailbox/get` round trip. -/
def resolve_mailbox_id (st : ServerState) (mailboxId mailboxName : Option String)
    (server : Server) : List WireRequest × Except String String :=
  match mailboxId with
  | some s => if s != "" then ([], .ok s) else resolveByName st mailboxName server
  | none => resolveByName st mailboxName server

/-- The base property list of lines 382 and 479, extended at lines 384 and
481 when `include_body` is set. -/
def emailProperties (includeBody : Bool) : List String :=
  let base := ["id", "subject", "from", "to", "receivedAt", "preview",
    "hasAttachment", "keywords"]
  if includeBody then base ++ ["bodyValues", "textBody", "htmlBody"] else base

/-- The wire encoding of the back-reference used at lines 395 and 492:
the value of the `#ids` key. -/
def idsBackRef : JVal :=
  .obj [("resultOf", .str "q"), ("name", .str "Email/query"), ("path", .str "/ids")]

/-- The two-call `Email/query` + `Email/get` batch of `get_emails`
(lines 386-398) and `search_emails` (lines 483-495); the two sites differ
only in the filter object. -/
def buildQueryGetCalls (accountId : JVal) (filter : JVal) (limit : Nat)
    (includeBody : Bool) : List MethodCall :=
  [ ("Email/query", .obj [
      ("accountId", accountId),
      ("filter", filter),
      ("sort", .arr [.obj [("property", .str "receivedAt"), ("isAscending", .bool false)]]),
      ("limit", .nat limit)], "q"),
    ("Email/get", .obj [
      ("accountId", accountId),
      ("#ids", idsBackRef),
      ("properties", .arr ((emailProperties includeBody).map .str))], "g") ]

/-- Extraction `result["methodResponses"][1][1]["list"]` of `get_emails`
(line 401) and `search_emails` (line 498): the payload is read at array
index 1, the entry labels are never consulted. -/
def fetchListFromResponses (resp : MethodResponses) :
    Except String (List JVal) :=
  match resp with
  | _ :: (_, p, _) :: _ =>
    match jlookup p "list" with
    | some (.arr l) => .ok l
    | _ => .error shapeErr
  | _ => .error shapeErr

/-- Arguments of the `get_emails` tool (lines 372-379). -/
structure GetEmailsArgs where
  mailboxId : Option String := none
  mailboxName : Option String := none
  limit : Option Nat := none
  includeBody : Option Bool := none

/-- Embedding of `get_emails` (lines 372-443).  The result is the extracted
email list; the per-email rendering of lines 403-443 is presentation. -/
def get_emails (st : ServerState) (a : GetEmailsArgs) (server : Server) :
    List WireRequest × Except String (List JVal) :=
  match resolve_mailbox_id st a.mailboxId a.mailboxName server with
  | (reqs, .error e) => (reqs, .error e)
  | (reqs₁, .ok mid) =>
    let calls := buildQueryGetCalls (jOfOptStr st.account_id)
      (.obj [("inMailbox", .str mid)]) (a.limit.getD 20) (a.includeBody.getD false)
    match make_jmap_request st calls server with
    | (reqs₂, .error e) => (reqs₁ ++ reqs₂, .error e)
    | (reqs₂, .ok resp) => (reqs₁ ++ reqs₂, fetchListFromResponses resp)

/-- Arguments of the `search_emails` tool (lines 445, 108-154). -/
structure SearchArgs where
  keyword : Option String := none
  from_email : Option String := none
  to_email : Option String := none
  subject : Option String := none
  mailboxId : Option String := none
  hasAttachment : Option Bool := none
  before : Option String := none
  after : Option String := none
  limit : Option Nat := none
  includeBody : Option Bool := none

/-- One conditional insertion `if v := args.get(k): filter[key] = v`
for a string-valued criterion (lines 449-462). -/
def optStrEntry (key : String) (v : Option String) : List (String × JVal) :=
  match v with
  | some s => if s = "" then [] else [(key, .str s)]
  | none => []

/-- The presence-based insertion for `hasAttachment` (lines 464-465):
`if "hasAttachment" in args`. -/
def optBoolEntry (key : String) (v : Option Bool) : List (String × JVal) :=
  match v with
  | some b => [(key, .bool b)]
  | none => []

/-- The date insertions of lines 467-471, which append a fixed time-of-day
suffix to the supplied (truthy) date string. -/
def optDateEntry (key suffix : String) (v : Option String) :
    List (String × JVal) :=
  match v with
  | some s => if s = "" then [] else [(key, .str (s ++ suffix))]
  | none => []

/-- The filter construction of `search_emails` (lines 447-471), in the
source's insertion order. -/
def buildEmailFilter (a : SearchArgs) : List (String × JVal) :=
  optStrEntry "inMailbox" a.mailboxId ++
  optStrEntry "text" a.keyword ++
  optStrEntry "from" a.from_email ++
  optStrEntry "to" a.to_email ++
  optStrEntry "subject" a.subject ++
  optBoolEntry "hasAttachment" a.hasAttachment ++
  optDateEntry "before" "T23:59:59Z" a.before ++
  optDateEntry "after" "T00:00:00Z" a.after

/-- Embedding of `search_emails` (lines 445-535).  The empty-filter check of
lines 473-474 happens before any request; the result is the extracted email
list and the search-summary rendering of lines 500-535 is presentation. -/
def search_emails (st : ServerState) (a : SearchArgs) (server : Server) :
    List WireRequest × Except String (List JVal) :=
  let filter := buildEmailFilter a
  if filter.isEmpty then ([], .error emptyCriteriaMsg)
  else
    let calls := buildQueryGetCalls (jOfOptStr st.account_id) (.obj filter)
      (a.limit.getD 20) (a.includeBody.getD false)
    match make_jmap_request st calls server with
    | (reqs, .error e) => (reqs, .error e)
    | (reqs, .ok resp) => (reqs, fetchListFromResponses resp)

/-- Embedding of `get_email_body` (lines 537-579).  The `format` argument
only affects rendering; the result is the extracted one-element email list
of line 552. -/
def get_email_body (st : ServerState) (emailId : String) (server : Server) :
    List WireRequest × Except String (List JVal) :=
  let props := ["id", "subject", "from", "to", "receivedAt", "bodyValues",
    "textBody", "htmlBody"]
  let calls : List MethodCall :=
    [("Email/get", .obj [
      ("accountId", jOfOptStr st.account_id),
      ("ids", .arr [.str emailId]),
      ("properties", .arr (props.map .str))], "g")]
  match make_jmap_request st calls server with
  | (reqs, .error e) => (reqs, .error e)
  | (reqs, .ok resp) =>
    match resp with
    | (_, p, _) :: _ =>
      match jlookup p "list" with
      | some (.arr l) => (reqs, .ok l)
      | _ => (reqs, .error shapeErr)
    | [] => (reqs, .error shapeErr)

/-- Arguments of the `send_email` tool (lines 581-588); `to`, `subject` and
`body` are required by the tool schema, `cc`/`bcc` default to `[]` and
`isHtml` to `False`. -/
structure SendArgs where
  «to» : List String
  cc : List String := []
  bcc : List String := []
  subject : String
  body : String
  isHtml : Bool := false

/-- The per-address wrapping of lines 582-584. -/
def wrapEmail (addr : String) : JVal := .obj [("email", .str addr)]

/-- The `email_data` draft object of lines 591-610, keys in the source's
insertion order. -/
def buildDraft (a : SendArgs) : JVal :=
  .obj (
    [("to", .arr (a.«to».map wrapEmail)),
     ("subject", .str a.subject),
     ("bodyValues", .obj [("body1", .obj [
        ("value", .str a.body),
        ("type", .str (if a.isHtml then "text/html" else "text/plain"))])])]
    ++ (if a.isHtml then
          [("htmlBody", .arr [.obj [("partId", .str "body1"), ("type", .str "text/html")]])]
        else
          [("textBody", .arr [.obj [("partId", .str "body1"), ("type", .str "text/plain")]])])
    ++ (if a.cc.isEmpty then [] else [("cc", .arr (a.cc.map wrapEmail))])
    ++ (if a.bcc.isEmpty then [] else [("bcc", .arr (a.bcc.map wrapEmail))]))

/-- The two-call `Email/set` + `EmailSubmission/set` batch of lines 612-629.
Both calls are assembled up front, before any request is sent. -/
def buildSendCalls (st : ServerState) (a : SendArgs) : List MethodCall :=
  [ ("Email/set", .obj [
      ("accountId", jOfOptStr st.account_id),
      ("create", .obj [("draft", buildDraft a)])], "e"),
    ("EmailSubmission/set", .obj [
      ("accountId", jOfOptStr st.account_id),
      ("create", .obj [("submission", .obj [
        ("#emailId", .obj [("resultOf", .str "e"), ("name", .str "Email/set"),
          ("path", .str "/created/draft/id")]),
        ("envelope", .obj [
          ("mailFrom", .obj [("email", .str "")]),
          ("rcptTo", .arr (a.«to».map wrapEmail ++ a.cc.map wrapEmail ++
            a.bcc.map wrapEmail))])])])], "s") ]

/-- The truthy `notCreated` check of lines 635 and 640:
`if result.get("notCreated"):` followed by
`list(result["notCreated"].values())[0]`.  Returns the first error object
when the map is present and non-empty. -/
def firstNotCreated (payload : JVal) : Option JVal :=
  match jlookup payload "notCreated" with
  | some (.obj (kv :: _)) => some kv.2
  | _ => none

/-- Lookup `error["description"]` (lines 637 and 642). -/
def descriptionOf (e : JVal) : Except String String :=
  match jlookup e "description" with
  | some (.str d) => .ok d
  | _ => .error shapeErr

/-- The response handling of `send_email` (lines 634-645).  Mirrors the
source's evaluation order: the `Email/set` payload at index 0 is checked
first, and the `EmailSubmission/set` payload at index 1 is touched only when
that check passes. -/
def processSendResponses (resp : MethodResponses) : Except String String :=
  match resp with
  | [] => .error shapeErr
  | (_, p₀, _) :: rest =>
    match firstNotCreated p₀ with
    | some e =>
      match descriptionOf e with
      | .ok d => .error ("Failed to create email: " ++ d)
      | .error msg => .error msg
    | none =>
      match rest with
      | [] => .error shapeErr
      | (_, p₁, _) :: _ =>
        match firstNotCreated p₁ with
        | some e =>
          match descriptionOf e with
          | .ok d => .error ("Failed to send email: " ++ d)
          | .error msg => .error msg
        | none =>
          match jlookup p₁ "created" with
          | some (.obj (kv :: _)) =>
            match jlookup kv.2 "id" with
            | some (.str i) => .ok i
            | _ => .error shapeErr
          | _ => .error shapeErr

/-- Embedding of `send_email` (lines 581-645): the two-call batch is built,
submitted as a single request (line 631), and the responses are then
inspected. -/
def send_email (st : ServerState) (a : SendArgs) (server : Server) :
    List WireRequest × Except String String :=
  match make_jmap_request st (buildSendCalls st a) server with
  | (reqs, .error e) => (reqs, .error e)
  | (reqs, .ok resp) => (reqs, processSendResponses resp)

/-! Concrete fixtures used by counterexamples and witnesses. -/

/-- A configured server state. -/
def stOK : ServerState := { api_token := some "token-1", account_id := some "A1", session_data := none }

/-- A never-configured server state. -/
def stNo : ServerState := { api_token := none, account_id := none, session_data := none }

/-- A previously configured state, about to be reconfigured. -/
def stOld : ServerState := { api_token := some "tokOld", account_id := some "accOld", session_data := none }

/-- A transport that always fails; operations that short-circuit never
observe it. -/
def server0 : Server := fun _ => (500, "", [])

/-- Criteria with a supplied-but-empty keyword (plus a subject, so the
criteria set is plainly non-empty). -/
def exC4 : SearchArgs := { keyword := some "", subject := some "x" }

/-- Criteria with a supplied-but-empty `before` date bound. -/
def exC6 : SearchArgs := { before := some "", subject := some "x" }

/-- The arguments object of the second call of a batch. -/
def secondCallArgs (calls : List MethodCall) : Option JVal :=
  match calls with
  | _ :: (_, args, _) :: _ => some args
  | _ => none

/-- Navigation to the submission envelope inside the send batch: second
call → `create` → `submission` → `envelope`. -/
def submissionEnvelope (calls : List MethodCall) : Option JVal :=
  match secondCallArgs calls with
  | some args =>
    match jlookup args "create" with
    | some cr =>
      match jlookup cr "submission" with
      | some sub => jlookup sub "envelope"
      | none => none
    | none => none
  | none => none

/-- Navigation to the draft object inside the send batch: first call →
`create` → `draft`. -/
def draftObj (calls : List MethodCall) : Option JVal :=
  match calls with
  | (_, args, _) :: _ =>
    match jlookup args "create" with
    | some cr => jlookup cr "draft"
    | none => none
  | _ => none

/-- The `Email/query` payload of the order-dependence scenario. -/
def qPayload : JVal := .obj [("ids", .arr [.str "e1"])]

/-- The `Email/get` payload of the order-dependence scenario. -/
def gPayload : JVal := .obj [("list", .arr [.obj [("id", .str "e1")]])]

/-- Responses labelled `q` then `g`, in submission order. -/
def respInOrder : MethodResponses :=
  [("Email/query", qPayload, "q"), ("Email/get", gPayload, "g")]

/-- The same labelled responses, in reversed order. -/
def respReversed : MethodResponses :=
  [("Email/get", gPayload, "g"), ("Email/query", qPayload, "q")]

/-- A transport delivering the responses in submission order. -/
def serverInOrder : Server := fun _ => (200, "", respInOrder)

/-- A transport delivering the same responses reversed. -/
def serverReversed : Server := fun _ => (200, "", respReversed)

/-- `get_emails` arguments with an explicit mailbox id. -/
def gArgsM1 : GetEmailsArgs := { mailboxId := some "M1" }

/-- The per-item error object of the partial-failure send scenario. -/
def ncErrObj : JVal :=
  .obj [("type", .str "invalidProperties"), ("description", .str "missing subject")]

/-- `Email/set` payload reporting the draft under `notCreated`. -/
def notCreatedPayload : JVal :=
  .obj [("created", .obj []), ("notCreated", .obj [("draft", ncErrObj)])]

/-- Responses for the partial-failure send scenario. -/
def respNotCreated : MethodResponses :=
  [("Email/set", notCreatedPayload, "e"), ("EmailSubmission/set", .obj [], "s")]

/-- A transport delivering the partial-failure send responses. -/
def serverNotCreated : Server := fun _ => (200, "", respNotCreated)

/-- Ordinary send arguments. -/
def sendArgsEx : SendArgs := { «to» := ["u@example.com"], subject := "s", body := "b" }

/-- Send arguments with an empty `to` list. -/
def sendArgsEmptyTo : SendArgs :=
  { «to» := [], cc := ["c@example.com"], bcc := ["b@example.com"],
    subject := "s", body := "b" }

/-- A bootstrap fetch that fails authentication. -/
def fetchFail : SessionFetch := fun _ => (500, "bad token", .null)

/-! Helper lemmas about the filter compiler. -/

theorem keys_optStrEntry (k : String) (v : Option String) :
    (optStrEntry k v).map Prod.fst = if truthyOpt v then [k] else [] := by
  cases v with
  | none => simp [optStrEntry, truthyOpt]
  | some s =>
    by_cases hs : s = "" <;> simp [optStrEntry, truthyOpt, hs]

theorem keys_optBoolEntry (k : String) (v : Option Bool) :
    (optBoolEntry k v).map Prod.fst = if v.isSome then [k] else [] := by
  cases v <;> simp [optBoolEntry]

theorem keys_optDateEntry (k suffix : String) (v : Option String) :
    (optDateEntry k suffix v).map Prod.fst = if truthyOpt v then [k] else [] := by
  cases v with
  | none => simp [optDateEntry, truthyOpt]
  | some s =>
    by_cases hs : s = "" <;> simp [optDateEntry, truthyOpt, hs]

theorem mem_ite_singleton (k k₁ : String) (c : Bool) :
    (k ∈ if c then [k₁] else []) ↔ (c = true ∧ k = k₁) := by
  cases c <;> simp

theorem assoc_optStrEntry_skip (k key : String) (v : Option String)
    (rest : List (String × JVal)) (h : key ≠ k) :
    assoc k (optStrEntry key v ++ rest) = assoc k rest := by
  cases v with
  | none => simp [optStrEntry]
  | some s =>
    by_cases hs : s = "" <;> simp [optStrEntry, hs, assoc, h]

theorem assoc_optBoolEntry_skip (k key : String) (v : Option Bool)
    (rest : List (String × JVal)) (h : key ≠ k) :
    assoc k (optBoolEntry key v ++ rest) = assoc k rest := by
  cases v <;> simp [optBoolEntry, assoc, h]

theorem assoc_optDateEntry_skip (k key suffix : String) (v : Option String)
    (rest : List (String × JVal)) (h : key ≠ k) :
    assoc k (optDateEntry key suffix v ++ rest) = assoc k rest := by
  cases v with
  | none => simp [optDateEntry]
  | some s =>
    by_cases hs : s = "" <;> simp [optDateEntry, hs, assoc, h]

theorem assoc_optDateEntry_hit (k suffix d : String) (hne : d ≠ "")
    (rest : List (String × JVal)) :
    assoc k (optDateEntry k suffix (some d) ++ rest) = some (.str (d ++ suffix)) := by
  simp [optDateEntry, hne, assoc]

theorem assoc_optDateEntry_hit_last (k suffix d : String) (hne : d ≠ "") :
    assoc k (optDateEntry k suffix (some d)) = some (.str (d ++ suffix)) := by
  simp [optDateEntry, hne, assoc]

/-! Claim theorems: the filter compiler (C4, C5, C6). -/

/-- C4 counterexample: the criteria `exC4` supply the keyword field (as the
empty string), yet the compiled filter carries no `text` key — refuting
"a field that is supplied always yields its key". -/
theorem compile_supplied_empty_keyword_cex :
    exC4.keyword.isSome = true ∧
      "text" ∉ (buildEmailFilter exC4).map Prod.fst := by
  exact ⟨rfl, by decide⟩

/-- C4 (amended): for every SearchCriteria, the compiled filter contains
exactly the predicate keys of the fields supplied with truthy values under
the fixed mapping keyword→text, fromAddress→from, toAddress→to,
subject→subject, mailboxId→inMailbox, hasAttachment→hasAttachment (plus
before/after) — a string field supplied as the empty string is treated as
absent, while hasAttachment counts whenever present, even as False; no
other key ever appears. -/
theorem compile_exact_keys (a : SearchArgs) (k : String) :
    k ∈ (buildEmailFilter a).map Prod.fst ↔
      ((truthyOpt a.mailboxId = true ∧ k = "inMailbox") ∨
       (truthyOpt a.keyword = true ∧ k = "text") ∨
       (truthyOpt a.from_email = true ∧ k = "from") ∨
       (truthyOpt a.to_email = true ∧ k = "to") ∨
       (truthyOpt a.subject = true ∧ k = "subject") ∨
       (a.hasAttachment.isSome = true ∧ k = "hasAttachment") ∨
       (truthyOpt a.before = true ∧ k = "before") ∨
       (truthyOpt a.after = true ∧ k = "after")) := by
  simp only [buildEmailFilter, List.map_append, List.mem_append,
    keys_optStrEntry, keys_optBoolEntry, keys_optDateEntry, mem_ite_singleton,
    or_assoc]

/-- C5: on entirely-empty search criteria, `search_emails` reports the
at-least-one-criterion failure and issues no wire request, for every server
state and transport. -/
theorem search_emails_empty_criteria (st : ServerState) (lim : Option Nat)
    (incl : Option Bool) (server : Server) :
    search_emails st { limit := lim, includeBody := incl } server
      = ([], .error emptyCriteriaMsg) := rfl

/-- C6 counterexample: the `before` bound is supplied as the empty string,
yet the compiled filter carries no `before` predicate at all — refuting
"an arbitrary string d compiles to d + T23:59:59Z". -/
theorem date_empty_string_cex :
    exC6.before = some "" ∧
      (assoc "before" (buildEmailFilter exC6)).isNone = true := by
  exact ⟨rfl, by decide⟩

/-- C6 (amended): every supplied non-empty date bound is normalized with no
parseability validation — `before = d` compiles to the predicate value
`d ++ "T23:59:59Z"` and `after = d` to `d ++ "T00:00:00Z"`; a bound
supplied as the empty string is treated as absent. -/
theorem date_normalization (a : SearchArgs) :
    (∀ d, a.before = some d → d ≠ "" →
      assoc "before" (buildEmailFilter a) = some (.str (d ++ "T23:59:59Z"))) ∧
    (∀ d, a.after = some d → d ≠ "" →
      assoc "after" (buildEmailFilter a) = some (.str (d ++ "T00:00:00Z"))) := by
  constructor
  · intro d hd hne
    rw [buildEmailFilter]
    simp only [List.append_assoc]
    rw [assoc_optStrEntry_skip _ _ _ _ (by decide),
      assoc_optStrEntry_skip _ _ _ _ (by decide),
      assoc_optStrEntry_skip _ _ _ _ (by decide),
      assoc_optStrEntry_skip _ _ _ _ (by decide),
      assoc_optStrEntry_skip _ _ _ _ (by decide),
      assoc_optBoolEntry_skip _ _ _ _ (by decide),
      hd, assoc_optDateEntry_hit _ _ _ hne]
  · intro d hd hne
    rw [buildEmailFilter]
    simp only [List.append_assoc]
    rw [assoc_optStrEntry_skip _ _ _ _ (by decide),
      assoc_optStrEntry_skip _ _ _ _ (by decide),
      assoc_optStrEntry_skip _ _ _ _ (by decide),
      assoc_optStrEntry_skip _ _ _ _ (by decide),
      assoc_optStrEntry_skip _ _ _ _ (by decide),
      assoc_optBoolEntry_skip _ _ _ _ (by decide),
      assoc_optDateEntry_skip _ _ _ _ _ (by decide),
      hd, assoc_optDateEntry_hit_last _ _ _ hne]

/-- C6 witness: the spec's own examples, evaluated. -/
theorem date_normalization_witness :
    assoc "before" (buildEmailFilter { before := some "2024-01-10", after := some "2024-01-01" })
        = some (.str "2024-01-10T23:59:59Z") ∧
    assoc "after" (buildEmailFilter { before := some "2024-01-10", after := some "2024-01-01" })
        = some (.str "2024-01-01T00:00:00Z") := by
  have h := date_normalization { before := some "2024-01-10", after := some "2024-01-01" }
  exact ⟨h.1 "2024-01-10" rfl (by decide), h.2 "2024-01-01" rfl (by decide)⟩

/-! Helper lemmas about `make_jmap_request`. -/

theorem make_jmap_request_nc (st : ServerState) (calls : List MethodCall)
    (server : Server) (h : notConfigured st = true) :
    make_jmap_request st calls server = ([], .error notConfiguredMsg) := by
  simp [make_jmap_request, h]

theorem make_jmap_request_ok (st : ServerState) (calls : List MethodCall)
    (server : Server) (t : String) (resp : MethodResponses)
    (h : notConfigured st = false)
    (hs : server (mkWireRequest calls) = (200, t, resp)) :
    make_jmap_request st calls server = ([mkWireRequest calls], .ok resp) := by
  simp [make_jmap_request, h, hs]

theorem make_jmap_request_requests (st : ServerState) (calls : List MethodCall)
    (server : Server) (h : notConfigured st = false) :
    (make_jmap_request st calls server).1 = [mkWireRequest calls] := by
  unfold make_jmap_request
  rw [h]
  simp only [Bool.false_eq_true, if_false]
  rcases hs : server (mkWireRequest calls) with ⟨status, text, resp⟩
  by_cases h200 : status = 200 <;> simp [h200]

/-! Claim theorems: batch shape and send envelope (C7, C8, C10). -/

/-- C7: for every account id, filter, limit and property selection, the
query-then-fetch batch shared by `get_emails` and `search_emails` consists
of exactly two calls, `Email/query` labelled `q` followed by `Email/get`
labelled `g`, and the second call's ids argument is the wire-encoded
back-reference key `#ids` with value resultOf = q, name = Email/query,
path = /ids. -/
theorem two_step_batch_shape (accountId filter : JVal) (limit : Nat)
    (includeBody : Bool) :
    ((buildQueryGetCalls accountId filter limit includeBody).map
        (fun c => (c.1, c.2.2))
      = [("Email/query", "q"), ("Email/get", "g")]) ∧
    ((secondCallArgs (buildQueryGetCalls accountId filter limit includeBody)).bind
        (fun gargs => jlookup gargs "#ids")
      = some (.obj [("resultOf", .str "q"), ("name", .str "Email/query"),
          ("path", .str "/ids")])) := by
  constructor
  · rfl
  · simp [buildQueryGetCalls, secondCallArgs, jlookup, assoc, idsBackRef]

/-- C8: for every send invocation, the submission envelope's `rcptTo` is the
literal concatenation of the wrapped `to`, then `cc`, then `bcc` address
lists, and no back-reference key `#rcptTo` is present. -/
theorem rcptTo_literal_concatenation (st : ServerState) (a : SendArgs) :
    ((submissionEnvelope (buildSendCalls st a)).bind
        (fun env => jlookup env "rcptTo")
      = some (.arr (a.«to».map wrapEmail ++ a.cc.map wrapEmail ++
          a.bcc.map wrapEmail))) ∧
    ((submissionEnvelope (buildSendCalls st a)).bind
        (fun env => jlookup env "#rcptTo") = none) := by
  constructor
  · simp [buildSendCalls, submissionEnvelope, secondCallArgs, jlookup, assoc]
  · simp [buildSendCalls, submissionEnvelope, secondCallArgs, jlookup, assoc]

/-- C10: a send invocation with an empty `to` list is not rejected
client-side: the two-call batch is still built and submitted as the one
wire request, the draft's `to` list is empty, the envelope's `rcptTo` is
just the wrapped cc then bcc addresses, and `mailFrom` is the literal
object with an empty email string. -/
theorem send_email_empty_to (st : ServerState) (a : SendArgs) (server : Server)
    (h₁ : truthyOpt st.api_token = true) (h₂ : truthyOpt st.account_id = true)
    (h₀ : a.«to» = []) :
    (send_email st a server).1 = [mkWireRequest (buildSendCalls st a)] ∧
    ((draftObj (buildSendCalls st a)).bind (fun d => jlookup d "to")
      = some (.arr [])) ∧
    ((submissionEnvelope (buildSendCalls st a)).bind
        (fun env => jlookup env "rcptTo")
      = some (.arr (a.cc.map wrapEmail ++ a.bcc.map wrapEmail))) ∧
    ((submissionEnvelope (buildSendCalls st a)).bind
        (fun env => jlookup env "mailFrom")
      = some (.obj [("email", .str "")])) := by
  have hnc : notConfigured st = false := by simp [notConfigured, h₁, h₂]
  refine ⟨?_, ?_, ?_, ?_⟩
  · rcases hm : make_jmap_request st (buildSendCalls st a) server with ⟨reqs, res⟩
    have hr : reqs = [mkWireRequest (buildSendCalls st a)] := by
      have h := make_jmap_request_requests st (buildSendCalls st a) server hnc
      rw [hm] at h
      exact h
    cases res <;> simp [send_email, hm, hr]
  · simp [buildSendCalls, buildDraft, draftObj, jlookup, assoc, h₀]
  · simp [buildSendCalls, submissionEnvelope, secondCallArgs, jlookup, assoc, h₀]
  · simp [buildSendCalls, submissionEnvelope, secondCallArgs, jlookup, assoc]

/-- C10 witness: a concrete empty-`to` send against a configured state. -/
theorem send_email_empty_to_witness :
    (send_email stOK sendArgsEmptyTo server0).1
      = [mkWireRequest (buildSendCalls stOK sendArgsEmptyTo)] ∧
    ((draftObj (buildSendCalls stOK sendArgsEmptyTo)).bind
        (fun d => jlookup d "to") = some (.arr [])) ∧
    ((submissionEnvelope (buildSendCalls stOK sendArgsEmptyTo)).bind
        (fun env => jlookup env "rcptTo")
      = some (.arr (sendArgsEmptyTo.cc.map wrapEmail ++
          sendArgsEmptyTo.bcc.map wrapEmail))) ∧
    ((submissionEnvelope (buildSendCalls stOK sendArgsEmptyTo)).bind
        (fun env => jlookup env "mailFrom")
      = some (.obj [("email", .str "")])) :=
  send_email_empty_to stOK sendArgsEmptyTo server0 rfl rfl rfl

/-! Claim theorems: send with partial failure (C2). -/

/-- C2 counterexample: on a response whose `Email/set` payload reports the
draft under `notCreated`, the send operation has already issued one wire
request whose batch contains the `EmailSubmission/set` call — refuting
"issues no EmailSubmission/set call". -/
theorem send_email_issues_submission_cex :
    ((send_email stOK sendArgsEx serverNotCreated).1.map
        (fun r => r.methodCalls.map (fun c => c.1))
      = [["Email/set", "EmailSubmission/set"]]) ∧
    ((send_email stOK sendArgsEx serverNotCreated).2
      = .error ("Failed to create email: " ++ "missing subject")) := by
  constructor
  · rfl
  · rfl

/-- C2 (amended): when the `Email/set` payload reports the draft under
`notCreated`, the send operation returns a failure carrying the server's
description and issues exactly one wire request in total — the single
two-call batch, built up front, which already contains the
`EmailSubmission/set` call; no further request follows and the submission
response is never inspected. -/
theorem send_email_create_failure (st : ServerState) (a : SendArgs)
    (server : Server) (t : String) (resp : MethodResponses)
    (n₀ l₀ : String) (p₀ : JVal) (rest : MethodResponses)
    (k d : String) (e : JVal) (errs : List (String × JVal))
    (h₁ : truthyOpt st.api_token = true) (h₂ : truthyOpt st.account_id = true)
    (hs : server (mkWireRequest (buildSendCalls st a)) = (200, t, resp))
    (hresp : resp = (n₀, p₀, l₀) :: rest)
    (hnc : jlookup p₀ "notCreated" = some (.obj ((k, e) :: errs)))
    (hd : jlookup e "description" = some (.str d)) :
    (send_email st a server
      = ([mkWireRequest (buildSendCalls st a)],
         .error ("Failed to create email: " ++ d))) ∧
    ((buildSendCalls st a).map (fun c => c.1)
      = ["Email/set", "EmailSubmission/set"]) := by
  have hcf : notConfigured st = false := by simp [notConfigured, h₁, h₂]
  constructor
  · unfold send_email
    rw [make_jmap_request_ok st _ server t resp hcf hs]
    simp [hresp, processSendResponses, firstNotCreated, hnc, descriptionOf, hd]
  · rfl

/-- C2 witness: the spec's partial-failure scenario, evaluated. -/
theorem send_email_create_failure_witness :
    (send_email stOK sendArgsEx serverNotCreated
      = ([mkWireRequest (buildSendCalls stOK sendArgsEx)],
         .error ("Failed to create email: " ++ "missing subject"))) ∧
    ((buildSendCalls stOK sendArgsEx).map (fun c => c.1)
      = ["Email/set", "EmailSubmission/set"]) :=
  send_email_create_failure stOK sendArgsEx serverNotCreated "" respNotCreated
    "Email/set" "e" notCreatedPayload [("EmailSubmission/set", .obj [], "s")]
    "draft" "missing subject" ncErrObj []
    rfl rfl rfl rfl rfl rfl

/-! Claim theorems: response correlation (C1). -/

/-- C1 counterexample: the same labelled per-call results delivered in
submission order versus reversed order produce different extracted fetch
results — refuting correlation by label. -/
theorem get_emails_order_dependent_cex :
    ((get_emails stOK gArgsM1 serverInOrder).2
      = .ok [.obj [("id", .str "e1")]]) ∧
    ((get_emails stOK gArgsM1 serverReversed).2 = .error shapeErr) ∧
    ((get_emails stOK gArgsM1 serverInOrder).2
      ≠ (get_emails stOK gArgsM1 serverReversed).2) := by
  refine ⟨rfl, rfl, ?_⟩
  intro h
  rw [show (get_emails stOK gArgsM1 serverInOrder).2
        = .ok [.obj [("id", .str "e1")]] from rfl,
      show (get_emails stOK gArgsM1 serverReversed).2
        = .error shapeErr from rfl] at h
  exact Except.noConfusion h

/-- C1 (amended): the consumer correlates by array position, not by label —
the extracted fetch result of a two-entry response is determined by the
payload at index 1 alone, whatever the method names and labels of either
entry. -/
theorem fetchList_label_independent (n₁ n₂ n₃ n₄ : String) (p₁ p₂ : JVal)
    (l₁ l₂ l₃ l₄ : String) :
    fetchListFromResponses [(n₁, p₁, l₁), (n₂, p₂, l₂)]
      = fetchListFromResponses [(n₃, p₁, l₃), (n₄, p₂, l₄)] := rfl

/-! Claim theorems: configuration atomicity (C3). -/

/-- C3 counterexample: reconfiguring a previously configured state with a
failing bootstrap fetch leaves the new credential paired with the old
account identifier — refuting atomic replacement. -/
theorem configure_partial_update_cex :
    ((configure_fastmail stOld "tokNew" none fetchFail).1.api_token
      = some "tokNew") ∧
    ((configure_fastmail stOld "tokNew" none fetchFail).1.account_id
      = some "accOld") ∧
    ((configure_fastmail stOld "tokNew" none fetchFail).2
      = .error ("Failed to authenticate: " ++ "bad token")) :=
  ⟨rfl, rfl, rfl⟩

/-- C3 (amended): the credential is written before the session fetch; on a
non-200 fetch the operation raises with the credential already replaced and
every other field (account identifier, session data) unchanged, so a
credential from the new configuration paired with the account identifier of
the old one is observable. -/
theorem configure_failure_replaces_credential_only (st : ServerState)
    (apiToken : String) (accountIdArg : Option String) (fetch : SessionFetch)
    (h : (fetch apiToken).1 ≠ 200) :
    configure_fastmail st apiToken accountIdArg fetch
      = ({ st with api_token := some apiToken },
         .error ("Failed to authenticate: " ++ (fetch apiToken).2.1)) := by
  unfold configure_fastmail
  rcases hf : fetch apiToken with ⟨status, text, body⟩
  rw [hf] at h
  simp only at h
  simp [hf, h]

/-- C3 witness: the counterexample state, via the general theorem. -/
theorem configure_failure_witness :
    configure_fastmail stOld "tokNew" none fetchFail
      = ({ stOld with api_token := some "tokNew" },
         .error ("Failed to authenticate: " ++ (fetchFail "tokNew").2.1)) :=
  configure_failure_replaces_credential_only stOld "tokNew" none fetchFail
    (by decide)

/-! Claim theorems: fail-fast on missing configuration (C9). -/

theorem resolveByName_nc (st : ServerState) (name : Option String)
    (server : Server) (h : notConfigured st = true)
    (hn : truthyOpt name = true) :
    resolveByName st name server = ([], .error notConfiguredMsg) := by
  simp [resolveByName, hn, make_jmap_request_nc st _ server h]

theorem resolveByName_noname (st : ServerState) (name : Option String)
    (server : Server) (hn : truthyOpt name = false) :
    resolveByName st name server = ([], .error mustProvideMsg) := by
  simp [resolveByName, hn]

/-- C9 counterexample: invoked unconfigured with entirely-empty criteria,
`search_emails` fails with the empty-criteria error, not the NotConfigured
error (though still with no network I/O). -/
theorem unconfigured_empty_search_cex :
    (search_emails stNo {} server0 = ([], .error emptyCriteriaMsg)) ∧
    emptyCriteriaMsg ≠ notConfiguredMsg :=
  ⟨rfl, by decide⟩

/-- C9 (amended): whenever the stored credential or account identifier is
missing (or empty), no operation performs any network I/O; list_mailboxes,
find_mailbox, get_email_body and send_email fail with the NotConfigured
error, as do get_emails whenever a mailbox id or name is supplied and
search_emails whenever its compiled filter is non-empty; get_emails with
neither mailbox argument and search_emails with empty criteria fail with
their argument-validation error first, still before any network I/O. -/
theorem unconfigured_fails_fast (st : ServerState) (server : Server)
    (role name roleF : Option String) (eid : String)
    (ga : GetEmailsArgs) (sa : SendArgs) (sc : SearchArgs)
    (h : notConfigured st = true) :
    (list_mailboxes st role server = ([], .error notConfiguredMsg)) ∧
    (find_mailbox st name roleF server = ([], .error notConfiguredMsg)) ∧
    (get_email_body st eid server = ([], .error notConfiguredMsg)) ∧
    (send_email st sa server = ([], .error notConfiguredMsg)) ∧
    ((truthyOpt ga.mailboxId = true ∨ truthyOpt ga.mailboxName = true) →
      get_emails st ga server = ([], .error notConfiguredMsg)) ∧
    ((get_emails st ga server).1 = []) ∧
    (((buildEmailFilter sc).isEmpty = false) →
      search_emails st sc server = ([], .error notConfiguredMsg)) ∧
    ((search_emails st sc server).1 = []) := by
  refine ⟨?_, ?_, ?_, ?_, ?_, ?_, ?_, ?_⟩
  · simp [list_mailboxes, make_jmap_request_nc st _ server h]
  · simp [find_mailbox, make_jmap_request_nc st _ server h]
  · simp [get_email_body, make_jmap_request_nc st _ server h]
  · simp [send_email, make_jmap_request_nc st _ server h]
  · intro hor
    rcases hmi : ga.mailboxId with _ | s
    · have hn : truthyOpt ga.mailboxName = true := by
        rcases hor with h₁ | h₁
        · rw [hmi] at h₁
          simp [truthyOpt] at h₁
        · exact h₁
      simp [get_emails, resolve_mailbox_id, hmi,
        resolveByName_nc st _ server h hn]
    · by_cases hs : s = ""
      · have hn : truthyOpt ga.mailboxName = true := by
          rcases hor with h₁ | h₁
          · rw [hmi, hs] at h₁
            simp [truthyOpt] at h₁
          · exact h₁
        simp [get_emails, resolve_mailbox_id, hmi, hs,
          resolveByName_nc st _ server h hn]
      · simp [get_emails, resolve_mailbox_id, hmi, hs,
          make_jmap_request_nc st _ server h]
  · rcases hmi : ga.mailboxId with _ | s
    · by_cases hn : truthyOpt ga.mailboxName = true
      · simp [get_emails, resolve_mailbox_id, hmi,
          resolveByName_nc st _ server h hn]
      · have hn₂ : truthyOpt ga.mailboxName = false := by
          revert hn
          cases truthyOpt ga.mailboxName <;> simp
        simp [get_emails, resolve_mailbox_id, hmi,
          resolveByName_noname st _ server hn₂]
    · by_cases hs : s = ""
      · by_cases hn : truthyOpt ga.mailboxName = true
        · simp [get_emails, resolve_mailbox_id, hmi, hs,
            resolveByName_nc st _ server h hn]
        · have hn₂ : truthyOpt ga.mailboxName = false := by
            revert hn
            cases truthyOpt ga.mailboxName <;> simp
          simp [get_emails, resolve_mailbox_id, hmi, hs,
            resolveByName_noname st _ server hn₂]
      · simp [get_emails, resolve_mailbox_id, hmi, hs,
          make_jmap_request_nc st _ server h]
  · intro hne
    simp [search_emails, hne, make_jmap_request_nc st _ server h]
  · by_cases hne : (buildEmailFilter sc).isEmpty <;>
      simp [search_emails, hne, make_jmap_request_nc st _ server h]

/-- C9 witness: the unconfigured state, on a representative operation of
each kind. -/
theorem unconfigured_fails_fast_witness :
    (list_mailboxes stNo none server0 = ([], .error notConfiguredMsg)) ∧
    (send_email stNo sendArgsEx server0 = ([], .error notConfiguredMsg)) ∧
    (search_emails stNo { keyword := some "x" } server0
      = ([], .error notConfiguredMsg)) := by
  have h := unconfigured_fails_fast stNo server0 none none none "e1"
    gArgsM1 sendArgsEx { keyword := some "x" } rfl
  exact ⟨h.1, h.2.2.2.1, h.2.2.2.2.2.2.1 (by decide)⟩

end FastMail
